import Mathlib

/-!
Verification of the read-only fantasy-football query API
(src/chapter6/complete/main.py and the data-access layer it delegates to).

Modelling conventions:
* A database table is a `List` of records in the store's natural order.
* Python `date` values are modelled as `Nat` with the usual order.
* The SQL pagination primitives `OFFSET`/`LIMIT` (reached through the ORM
  pass-through) are modelled on `Int` arguments, as the Python handlers
  accept arbitrary `int` values: a negative OFFSET behaves like 0 and a
  negative LIMIT means "no limit", following the store's SQL semantics.
* The handlers of main.py return either a body or an HTTP error
  (`HTTPException(status_code, detail)`), modelled by `ApiResponse`.
-/

/-- A Player row: opaque internal id, first/last name, last-changed date. -/
structure Player where
  player_id : Nat
  first_name : String
  last_name : String
  last_changed_date : Nat
deriving DecidableEq, Repr

/-- A Performance row: opaque internal id, player reference, week, scoring
field, last-changed date. -/
structure Performance where
  performance_id : Nat
  player_id : Nat
  week_number : Nat
  fantasy_points : Int
  last_changed_date : Nat
deriving DecidableEq, Repr

/-- A League row: opaque internal id, name (not unique), last-changed date. -/
structure League where
  league_id : Nat
  league_name : String
  last_changed_date : Nat
deriving DecidableEq, Repr

/-- A Team row: opaque internal id, name, league reference, last-changed
date. -/
structure Team where
  team_id : Nat
  team_name : String
  league_id : Nat
  last_changed_date : Nat
deriving DecidableEq, Repr

/-- The Counts response body built by the `get_count` handler. -/
structure Counts where
  league_count : Nat
  team_count : Nat
  player_count : Nat
deriving DecidableEq, Repr

/-- SQL OFFSET as executed by the store: discards the first `n` rows; a
negative offset behaves like 0. -/
def sqlOffset (n : Int) (l : List α) : List α :=
  l.drop n.toNat

/-- SQL LIMIT as executed by the store: keeps at most `n` rows; a negative
limit means "no limit". -/
def sqlLimit (n : Int) (l : List α) : List α :=
  if n < 0 then l else l.take n.toNat

/-- One ORM query-building step: apply a filter only when the criterion is
present (`applyOpt none` leaves the query unchanged). -/
def applyOpt (c : Option α) (f : α → β → Bool) (l : List β) : List β :=
  match c with
  | none => l
  | some v => l.filter (f v)

/-- The predicate an optional criterion imposes: no restriction when the
criterion is absent. -/
def optPred (c : Option α) (f : α → β → Bool) (x : β) : Bool :=
  match c with
  | none => true
  | some v => f v x

/-- Modelled from the spec: `crud.get_players` (crud.py is not under src/).
§4.1: the data-access layer is a direct pass-through to ORM query-building
primitives — optionally apply each present filter (inclusive minimum on the
last-changed date, exact match on first and last name), then the pagination
window (offset, then limit). -/
def get_players (st : List Player) (skip limit : Int) (minDate : Option Nat)
    (firstName lastName : Option String) : List Player :=
  let q := st
  let q := applyOpt minDate (fun d p => d ≤ p.last_changed_date) q
  let q := applyOpt firstName (fun n p => p.first_name == n) q
  let q := applyOpt lastName (fun n p => p.last_name == n) q
  sqlLimit limit (sqlOffset skip q)

/-- Modelled from the spec: `crud.get_player` (crud.py is not under src/).
§4.2: fetch the unique record with the given internal id, or absent. -/
def get_player (st : List Player) (player_id : Nat) : Option Player :=
  st.find? (fun p => p.player_id == player_id)

/-- Modelled from the spec: `crud.get_performances` (crud.py is not under
src/). Same pass-through shape as `get_players`, with only the
last-changed-date filter. -/
def get_performances (st : List Performance) (skip limit : Int)
    (minDate : Option Nat) : List Performance :=
  let q := st
  let q := applyOpt minDate (fun d p => d ≤ p.last_changed_date) q
  sqlLimit limit (sqlOffset skip q)

/-- Modelled from the spec: `crud.get_leagues` (crud.py is not under src/).
Optional filters: inclusive minimum last-changed date and exact league
name. -/
def get_leagues (st : List League) (skip limit : Int) (minDate : Option Nat)
    (leagueName : Option String) : List League :=
  let q := st
  let q := applyOpt minDate (fun d l => d ≤ l.last_changed_date) q
  let q := applyOpt leagueName (fun n l => l.league_name == n) q
  sqlLimit limit (sqlOffset skip q)

/-- Modelled from the spec: `crud.get_league` (crud.py is not under src/). -/
def get_league (st : List League) (league_id : Nat) : Option League :=
  st.find? (fun l => l.league_id == league_id)

/-- Modelled from the spec: `crud.get_teams` (crud.py is not under src/).
Optional filters: inclusive minimum last-changed date, exact team name,
exact league id. -/
def get_teams (st : List Team) (skip limit : Int) (minDate : Option Nat)
    (teamName : Option String) (leagueId : Option Nat) : List Team :=
  let q := st
  let q := applyOpt minDate (fun d t => d ≤ t.last_changed_date) q
  let q := applyOpt teamName (fun n t => t.team_name == n) q
  let q := applyOpt leagueId (fun i t => t.league_id == i) q
  sqlLimit limit (sqlOffset skip q)

/-- Modelled from the spec: `crud.get_league_count` (crud.py is not under
src/). §4.3: the total number of records currently in the store, no
filters. -/
def get_league_count (st : List League) : Nat := st.length

/-- Modelled from the spec: `crud.get_team_count` (crud.py is not under
src/). -/
def get_team_count (st : List Team) : Nat := st.length

/-- Modelled from the spec: `crud.get_player_count` (crud.py is not under
src/). -/
def get_player_count (st : List Player) : Nat := st.length

/-- Outcome of a handler: a body, or an `HTTPException(status, detail)`. -/
inductive ApiResponse (α : Type) where
  | ok (body : α)
  | error (status : Nat) (detail : String)
deriving DecidableEq, Repr

/-- Whether a handler outcome is a client error (4xx HTTPException). -/
def ApiResponse.isClientError : ApiResponse α → Bool
  | .ok _ => false
  | .error status _ => 400 ≤ status && status < 500

/-- The conjunction of the player filters that are present (absent filters
impose no restriction). -/
def satisfiesPlayerFilters (minDate : Option Nat)
    (firstName lastName : Option String) (p : Player) : Bool :=
  (match minDate with | none => true | some d => d ≤ p.last_changed_date) &&
  (match firstName with | none => true | some n => p.first_name == n) &&
  (match lastName with | none => true | some n => p.last_name == n)

/-- The conjunction of the performance filters that are present (only the
minimum last-changed date). -/
def satisfiesPerformanceFilters (minDate : Option Nat)
    (p : Performance) : Bool :=
  match minDate with | none => true | some d => d ≤ p.last_changed_date

/-- The conjunction of the league filters that are present. -/
def satisfiesLeagueFilters (minDate : Option Nat)
    (leagueName : Option String) (l : League) : Bool :=
  (match minDate with | none => true | some d => d ≤ l.last_changed_date) &&
  (match leagueName with | none => true | some n => l.league_name == n)

/-- The conjunction of the team filters that are present. -/
def satisfiesTeamFilters (minDate : Option Nat) (teamName : Option String)
    (leagueId : Option Nat) (t : Team) : Bool :=
  (match minDate with | none => true | some d => d ≤ t.last_changed_date) &&
  (match teamName with | none => true | some n => t.team_name == n) &&
  (match leagueId with | none => true | some i => t.league_id == i)

/-- Handler `read_players` (main.py lines 73–98): binds `skip` (default 0),
`limit` (default 100) and the optional filters, then delegates to
`crud.get_players`. The `Query(...)` declarations carry no range
constraint, so no validation is performed on the values. -/
def read_players (st : List Player) (skip limit : Option Int)
    (minimum_last_changed_date : Option Nat)
    (first_name last_name : Option String) : ApiResponse (List Player) :=
  .ok (get_players st (skip.getD 0) (limit.getD 100)
    minimum_last_changed_date first_name last_name)

/-- Handler `read_player` (main.py lines 111–115): looks the player up by id
and raises `HTTPException(404)` when absent, else returns the record. -/
def read_player (st : List Player) (player_id : Nat) : ApiResponse Player :=
  match get_player st player_id with
  | none => .error 404 "선수를 찾을 수 없습니다."
  | some p => .ok p

/-- Handler `read_performances` (main.py lines 130–146): binds the defaults
and delegates; like `read_players` it carries no range constraint. -/
def read_performances (st : List Performance) (skip limit : Option Int)
    (minimum_last_changed_date : Option Nat) :
    ApiResponse (List Performance) :=
  .ok (get_performances st (skip.getD 0) (limit.getD 100)
    minimum_last_changed_date)

/-- Handler `read_league` (main.py lines 158–162): looks the league up by id
and raises `HTTPException(404)` when absent, else returns the record. -/
def read_league (st : List League) (league_id : Nat) : ApiResponse League :=
  match get_league st league_id with
  | none => .error 404 "리그를 찾을 수 없습니다."
  | some l => .ok l

/-- Handler `read_leagues` (main.py lines 178–201): binds the defaults and
delegates; no range constraint on skip or limit. -/
def read_leagues (st : List League) (skip limit : Option Int)
    (minimum_last_changed_date : Option Nat) (league_name : Option String) :
    ApiResponse (List League) :=
  .ok (get_leagues st (skip.getD 0) (limit.getD 100)
    minimum_last_changed_date league_name)

/-- Handler `read_teams` (main.py lines 219–247): binds the defaults and
delegates; no range constraint on skip or limit. -/
def read_teams (st : List Team) (skip limit : Option Int)
    (minimum_last_changed_date : Option Nat) (team_name : Option String)
    (league_id : Option Nat) : ApiResponse (List Team) :=
  .ok (get_teams st (skip.getD 0) (limit.getD 100)
    minimum_last_changed_date team_name league_id)

/-- Handler `get_count` (main.py lines 261–267): builds the Counts body from
the three per-kind aggregate counts. -/
def get_count (leagues : List League) (teams : List Team)
    (players : List Player) : Counts :=
  { league_count := get_league_count leagues
    team_count := get_team_count teams
    player_count := get_player_count players }

/-- A concrete three-player store used for witnesses and counterexamples
(the scenario of §8 of the design notes). -/
def wPlayers : List Player :=
  [⟨1, "Josh", "Allen", 5⟩, ⟨2, "Josh", "Jacobs", 7⟩,
   ⟨3, "Patrick", "Mahomes", 9⟩]

/-- A concrete two-performance store used for witnesses. -/
def wPerformances : List Performance :=
  [⟨21, 1, 1, 24, 5⟩, ⟨22, 2, 1, 17, 7⟩]

/-- A concrete two-league store used for witnesses. -/
def wLeagues : List League :=
  [⟨10, "Pigskin", 4⟩, ⟨11, "Gridiron", 6⟩]

/-- A concrete two-team store used for witnesses. -/
def wTeams : List Team :=
  [⟨31, "Sharks", 10, 4⟩, ⟨32, "Bears", 11, 6⟩]

/-! ## Helper lemmas -/

/-- Two chained ORM filter steps equal one filter by the conjunction. -/
theorem filter2_eq (a b : α → Bool) (l : List α) :
    (l.filter a).filter b = l.filter (fun x => a x && b x) := by
  rw [List.filter_filter]
  apply List.filter_congr
  intro x _
  cases a x <;> cases b x <;> rfl

/-- Three chained ORM filter steps equal one filter by the conjunction. -/
theorem filter3_eq (a b c : α → Bool) (l : List α) :
    ((l.filter a).filter b).filter c = l.filter (fun x => a x && b x && c x) := by
  rw [List.filter_filter, List.filter_filter]
  apply List.filter_congr
  intro x _
  cases a x <;> cases b x <;> cases c x <;> rfl

/-- An ORM filter step filters by the criterion's predicate. -/
theorem applyOpt_eq_filter (c : Option α) (f : α → β → Bool) (l : List β) :
    applyOpt c f l = l.filter (optPred c f) := by
  cases c with
  | none =>
      show l = l.filter (fun _ => true)
      simp
  | some v => rfl

/-- The players query is the pagination window applied to the records that
satisfy the conjunction of all present filters. -/
theorem get_players_eq (st : List Player) (skip limit : Nat)
    (minDate : Option Nat) (firstName lastName : Option String) :
    get_players st ↑skip ↑limit minDate firstName lastName =
      ((st.filter (satisfiesPlayerFilters minDate firstName lastName)).drop
        skip).take limit := by
  have hoff : ∀ l : List Player, sqlOffset ↑skip l = l.drop skip := by
    intro l; simp [sqlOffset]
  have hlim : ∀ l : List Player, sqlLimit ↑limit l = l.take limit := by
    intro l; simp [sqlLimit]
  simp only [get_players]
  rw [hoff, hlim, applyOpt_eq_filter, applyOpt_eq_filter, applyOpt_eq_filter,
    filter3_eq]
  refine congrArg (List.take limit) (congrArg (List.drop skip) ?_)
  apply List.filter_congr
  intro x hx
  cases minDate <;> cases firstName <;> cases lastName <;> rfl

/-- The performances query is the pagination window applied to the records
that satisfy the present filter. -/
theorem get_performances_eq (st : List Performance) (skip limit : Nat)
    (minDate : Option Nat) :
    get_performances st ↑skip ↑limit minDate =
      ((st.filter (satisfiesPerformanceFilters minDate)).drop
        skip).take limit := by
  have hoff : ∀ l : List Performance, sqlOffset ↑skip l = l.drop skip := by
    intro l; simp [sqlOffset]
  have hlim : ∀ l : List Performance, sqlLimit ↑limit l = l.take limit := by
    intro l; simp [sqlLimit]
  simp only [get_performances]
  rw [hoff, hlim, applyOpt_eq_filter]
  refine congrArg (List.take limit) (congrArg (List.drop skip) ?_)
  apply List.filter_congr
  intro x hx
  cases minDate <;> rfl

/-- The leagues query is the pagination window applied to the records that
satisfy the conjunction of all present filters. -/
theorem get_leagues_eq (st : List League) (skip limit : Nat)
    (minDate : Option Nat) (leagueName : Option String) :
    get_leagues st ↑skip ↑limit minDate leagueName =
      ((st.filter (satisfiesLeagueFilters minDate leagueName)).drop
        skip).take limit := by
  have hoff : ∀ l : List League, sqlOffset ↑skip l = l.drop skip := by
    intro l; simp [sqlOffset]
  have hlim : ∀ l : List League, sqlLimit ↑limit l = l.take limit := by
    intro l; simp [sqlLimit]
  simp only [get_leagues]
  rw [hoff, hlim, applyOpt_eq_filter, applyOpt_eq_filter, filter2_eq]
  refine congrArg (List.take limit) (congrArg (List.drop skip) ?_)
  apply List.filter_congr
  intro x hx
  cases minDate <;> cases leagueName <;> rfl

/-- The teams query is the pagination window applied to the records that
satisfy the conjunction of all present filters. -/
theorem get_teams_eq (st : List Team) (skip limit : Nat)
    (minDate : Option Nat) (teamName : Option String)
    (leagueId : Option Nat) :
    get_teams st ↑skip ↑limit minDate teamName leagueId =
      ((st.filter (satisfiesTeamFilters minDate teamName leagueId)).drop
        skip).take limit := by
  have hoff : ∀ l : List Team, sqlOffset ↑skip l = l.drop skip := by
    intro l; simp [sqlOffset]
  have hlim : ∀ l : List Team, sqlLimit ↑limit l = l.take limit := by
    intro l; simp [sqlLimit]
  simp only [get_teams]
  rw [hoff, hlim, applyOpt_eq_filter, applyOpt_eq_filter, applyOpt_eq_filter,
    filter3_eq]
  refine congrArg (List.take limit) (congrArg (List.drop skip) ?_)
  apply List.filter_congr
  intro x hx
  cases minDate <;> cases teamName <;> cases leagueId <;> rfl

/-- Filtering by no filters keeps every record. -/
theorem filter_satisfies_none (st : List Player) :
    st.filter (satisfiesPlayerFilters none none none) = st := by
  apply List.filter_eq_self.mpr
  intro a _
  rfl

/-- With no filters present the players query is a plain drop/take slice of
the store. -/
theorem get_players_nofilter (st : List Player) (skip limit : Nat) :
    get_players st ↑skip ↑limit none none none = (st.drop skip).take limit := by
  rw [get_players_eq, filter_satisfies_none]

/-- Filtering performances by no filters keeps every record. -/
theorem filter_satisfiesF_none (st : List Performance) :
    st.filter (satisfiesPerformanceFilters none) = st := by
  apply List.filter_eq_self.mpr
  intro a _
  rfl

/-- Filtering leagues by no filters keeps every record. -/
theorem filter_satisfiesL_none (st : List League) :
    st.filter (satisfiesLeagueFilters none none) = st := by
  apply List.filter_eq_self.mpr
  intro a _
  rfl

/-- Filtering teams by no filters keeps every record. -/
theorem filter_satisfiesT_none (st : List Team) :
    st.filter (satisfiesTeamFilters none none none) = st := by
  apply List.filter_eq_self.mpr
  intro a _
  rfl

/-- With no filters present the performances query is a plain drop/take
slice of the store. -/
theorem get_performances_nofilter (st : List Performance) (skip limit : Nat) :
    get_performances st ↑skip ↑limit none = (st.drop skip).take limit := by
  rw [get_performances_eq, filter_satisfiesF_none]

/-- With no filters present the leagues query is a plain drop/take slice of
the store. -/
theorem get_leagues_nofilter (st : List League) (skip limit : Nat) :
    get_leagues st ↑skip ↑limit none none = (st.drop skip).take limit := by
  rw [get_leagues_eq, filter_satisfiesL_none]

/-- With no filters present the teams query is a plain drop/take slice of
the store. -/
theorem get_teams_nofilter (st : List Team) (skip limit : Nat) :
    get_teams st ↑skip ↑limit none none none = (st.drop skip).take limit := by
  rw [get_teams_eq, filter_satisfiesT_none]

/-- A filtered drop/take window contains only matching records and has
length min(limit, max(0, matching − skip)). -/
theorem window_only_matching_and_count (l : List α) (p : α → Bool)
    (skip limit : Nat) :
    (∀ r ∈ ((l.filter p).drop skip).take limit, p r = true) ∧
    ((((l.filter p).drop skip).take limit).length : Int) =
      min (limit : Int) (max 0
        (((l.filter p).length : Int) - (skip : Int))) := by
  constructor
  · intro r hr
    exact (List.mem_filter.mp
      (List.mem_of_mem_drop (List.mem_of_mem_take hr))).2
  · rw [List.length_take, List.length_drop]
    omega

/-- Successive windows (0, N) and (N, M) of a duplicate-free list are
disjoint and concatenate to its first N + M elements. -/
theorem window_disjoint_cover (l : List α) (N M : Nat) (hnd : l.Nodup) :
    l.take N ++ (l.drop N).take M = l.take (N + M) ∧
    ∀ r ∈ l.take N, r ∉ (l.drop N).take M := by
  have hcat : l.take N ++ (l.drop N).take M = l.take (N + M) :=
    (List.take_add l N M).symm
  refine ⟨hcat, ?_⟩
  have hnd2 : (l.take N ++ (l.drop N).take M).Nodup := by
    rw [hcat]
    exact hnd.sublist (List.take_sublist _ _)
  intro r hr hr2
  exact (List.nodup_append.mp hnd2).2.2 hr hr2

/-- A filtered window whose predicate is a date bound conjoined with the
other filters: every element of the window meets the bound, and every
otherwise-matching record meeting the bound is in the window once the
window covers the whole matching set. -/
theorem window_min_date_bound (l : List α) (dt : α → Nat) (q other : α → Bool)
    (D skip limit : Nat)
    (hq : ∀ x, q x = true ↔ (D ≤ dt x ∧ other x = true)) :
    (∀ r ∈ ((l.filter q).drop skip).take limit, D ≤ dt r) ∧
    (skip = 0 → (l.filter q).length ≤ limit →
      ∀ r ∈ l, other r = true → D ≤ dt r →
        r ∈ ((l.filter q).drop skip).take limit) := by
  constructor
  · intro r hr
    exact ((hq r).mp (List.mem_filter.mp
      (List.mem_of_mem_drop (List.mem_of_mem_take hr))).2).1
  · intro hskip hlim r hr hother hD
    subst hskip
    rw [List.drop_zero, List.take_of_length_le hlim]
    exact List.mem_filter.mpr ⟨hr, (hq r).mpr ⟨hD, hother⟩⟩

/-- The player filter with a present minimum date is that date bound
conjoined with the other player filters. -/
theorem satisfiesPlayerFilters_some_iff (D : Nat)
    (firstName lastName : Option String) (x : Player) :
    satisfiesPlayerFilters (some D) firstName lastName x = true ↔
      (D ≤ x.last_changed_date ∧
        satisfiesPlayerFilters none firstName lastName x = true) := by
  simp [satisfiesPlayerFilters, Bool.and_eq_true, decide_eq_true_eq,
    and_assoc]

/-- The performance filter with a present minimum date is exactly that date
bound (there are no other performance filters). -/
theorem satisfiesPerformanceFilters_some_iff (D : Nat) (x : Performance) :
    satisfiesPerformanceFilters (some D) x = true ↔
      (D ≤ x.last_changed_date ∧
        satisfiesPerformanceFilters none x = true) := by
  simp [satisfiesPerformanceFilters, decide_eq_true_eq]

/-- The league filter with a present minimum date is that date bound
conjoined with the other league filters. -/
theorem satisfiesLeagueFilters_some_iff (D : Nat)
    (leagueName : Option String) (x : League) :
    satisfiesLeagueFilters (some D) leagueName x = true ↔
      (D ≤ x.last_changed_date ∧
        satisfiesLeagueFilters none leagueName x = true) := by
  simp [satisfiesLeagueFilters, Bool.and_eq_true, decide_eq_true_eq]

/-- The team filter with a present minimum date is that date bound conjoined
with the other team filters. -/
theorem satisfiesTeamFilters_some_iff (D : Nat) (teamName : Option String)
    (leagueId : Option Nat) (x : Team) :
    satisfiesTeamFilters (some D) teamName leagueId x = true ↔
      (D ≤ x.last_changed_date ∧
        satisfiesTeamFilters none teamName leagueId x = true) := by
  simp [satisfiesTeamFilters, Bool.and_eq_true, decide_eq_true_eq, and_assoc]

/-! ## Claims -/

/-- C1: for every entity kind, every filter set and every pagination pair,
the query returns only records satisfying every present filter, and the
number of records returned is min(limit, max(0, total_matching − skip)),
where total_matching counts the records in the store satisfying all present
filters. -/
theorem query_only_matching_and_count (stP : List Player)
    (stF : List Performance) (stL : List League) (stT : List Team)
    (skip limit : Nat) (minDate : Option Nat)
    (firstName lastName leagueName teamName : Option String)
    (leagueId : Option Nat) :
    ((∀ r ∈ get_players stP ↑skip ↑limit minDate firstName lastName,
        satisfiesPlayerFilters minDate firstName lastName r = true) ∧
      ((get_players stP ↑skip ↑limit minDate firstName lastName).length : Int)
        = min (limit : Int) (max 0
          (((stP.filter (satisfiesPlayerFilters minDate firstName
            lastName)).length : Int) - (skip : Int)))) ∧
    ((∀ r ∈ get_performances stF ↑skip ↑limit minDate,
        satisfiesPerformanceFilters minDate r = true) ∧
      ((get_performances stF ↑skip ↑limit minDate).length : Int)
        = min (limit : Int) (max 0
          (((stF.filter (satisfiesPerformanceFilters minDate)).length : Int)
            - (skip : Int)))) ∧
    ((∀ r ∈ get_leagues stL ↑skip ↑limit minDate leagueName,
        satisfiesLeagueFilters minDate leagueName r = true) ∧
      ((get_leagues stL ↑skip ↑limit minDate leagueName).length : Int)
        = min (limit : Int) (max 0
          (((stL.filter (satisfiesLeagueFilters minDate
            leagueName)).length : Int) - (skip : Int)))) ∧
    ((∀ r ∈ get_teams stT ↑skip ↑limit minDate teamName leagueId,
        satisfiesTeamFilters minDate teamName leagueId r = true) ∧
      ((get_teams stT ↑skip ↑limit minDate teamName leagueId).length : Int)
        = min (limit : Int) (max 0
          (((stT.filter (satisfiesTeamFilters minDate teamName
            leagueId)).length : Int) - (skip : Int)))) := by
  refine ⟨?_, ?_, ?_, ?_⟩
  · rw [get_players_eq]
    exact window_only_matching_and_count stP _ skip limit
  · rw [get_performances_eq]
    exact window_only_matching_and_count stF _ skip limit
  · rw [get_leagues_eq]
    exact window_only_matching_and_count stL _ skip limit
  · rw [get_teams_eq]
    exact window_only_matching_and_count stT _ skip limit

/-- Witness for C1: records in the results of concrete filtered queries of
two different kinds satisfy the filters. -/
theorem query_only_matching_and_count_w :
    satisfiesPlayerFilters none (some "Josh") none
      ⟨1, "Josh", "Allen", 5⟩ = true ∧
    satisfiesTeamFilters none none (some 10) ⟨31, "Sharks", 10, 4⟩ = true :=
  ⟨(query_only_matching_and_count wPlayers wPerformances wLeagues wTeams
      0 100 none (some "Josh") none none none none).1.1
      ⟨1, "Josh", "Allen", 5⟩ (by decide),
   (query_only_matching_and_count wPlayers wPerformances wLeagues wTeams
      0 100 none none none none none (some 10)).2.2.2.1
      ⟨31, "Sharks", 10, 4⟩ (by decide)⟩

/-- C2: for every entity kind, two successive unfiltered queries with
windows (0, N) and (N, M) on the unchanged store cover exactly the first
N + M records in store order, with no duplicate and no gap. -/
theorem query_pagination_disjoint_cover (stP : List Player)
    (stF : List Performance) (stL : List League) (stT : List Team)
    (NP MP NF MF NL ML NT MT : Nat)
    (hidsP : (stP.map Player.player_id).Nodup)
    (hidsF : (stF.map Performance.performance_id).Nodup)
    (hidsL : (stL.map League.league_id).Nodup)
    (hidsT : (stT.map Team.team_id).Nodup)
    (hNP : NP ≤ stP.length) (hMP : MP ≤ stP.length)
    (hNF : NF ≤ stF.length) (hMF : MF ≤ stF.length)
    (hNL : NL ≤ stL.length) (hML : ML ≤ stL.length)
    (hNT : NT ≤ stT.length) (hMT : MT ≤ stT.length) :
    (get_players stP ↑(0:Nat) ↑NP none none none ++
        get_players stP ↑NP ↑MP none none none = stP.take (NP + MP) ∧
      ∀ r ∈ get_players stP ↑(0:Nat) ↑NP none none none,
        r ∉ get_players stP ↑NP ↑MP none none none) ∧
    (get_performances stF ↑(0:Nat) ↑NF none ++
        get_performances stF ↑NF ↑MF none = stF.take (NF + MF) ∧
      ∀ r ∈ get_performances stF ↑(0:Nat) ↑NF none,
        r ∉ get_performances stF ↑NF ↑MF none) ∧
    (get_leagues stL ↑(0:Nat) ↑NL none none ++
        get_leagues stL ↑NL ↑ML none none = stL.take (NL + ML) ∧
      ∀ r ∈ get_leagues stL ↑(0:Nat) ↑NL none none,
        r ∉ get_leagues stL ↑NL ↑ML none none) ∧
    (get_teams stT ↑(0:Nat) ↑NT none none none ++
        get_teams stT ↑NT ↑MT none none none = stT.take (NT + MT) ∧
      ∀ r ∈ get_teams stT ↑(0:Nat) ↑NT none none none,
        r ∉ get_teams stT ↑NT ↑MT none none none) := by
  refine ⟨?_, ?_, ?_, ?_⟩
  · simp only [get_players_nofilter, List.drop_zero]
    exact window_disjoint_cover stP NP MP (List.Nodup.of_map _ hidsP)
  · simp only [get_performances_nofilter, List.drop_zero]
    exact window_disjoint_cover stF NF MF (List.Nodup.of_map _ hidsF)
  · simp only [get_leagues_nofilter, List.drop_zero]
    exact window_disjoint_cover stL NL ML (List.Nodup.of_map _ hidsL)
  · simp only [get_teams_nofilter, List.drop_zero]
    exact window_disjoint_cover stT NT MT (List.Nodup.of_map _ hidsT)

/-- Witness for C2 at the concrete stores, N = M = 1 for every kind. -/
theorem query_pagination_disjoint_cover_w :
    get_players wPlayers ↑(0:Nat) ↑(1:Nat) none none none ++
        get_players wPlayers ↑(1:Nat) ↑(1:Nat) none none none =
      wPlayers.take (1 + 1) :=
  (query_pagination_disjoint_cover wPlayers wPerformances wLeagues wTeams
    1 1 1 1 1 1 1 1 (by decide) (by decide) (by decide) (by decide)
    (by decide) (by decide) (by decide) (by decide) (by decide) (by decide)
    (by decide) (by decide)).1.1

/-- C3: every query call applies the conjunction of all present filters to
the store first, and only then the pagination window — skip discards
matching records from the front, then limit caps the remainder; this holds
for all four query kinds. -/
theorem queries_filter_before_pagination (stP : List Player)
    (stF : List Performance) (stL : List League) (stT : List Team)
    (skip limit : Nat) (minDate : Option Nat)
    (firstName lastName leagueName teamName : Option String)
    (leagueId : Option Nat) :
    get_players stP ↑skip ↑limit minDate firstName lastName =
      List.take limit (List.drop skip
        (stP.filter (satisfiesPlayerFilters minDate firstName lastName))) ∧
    get_performances stF ↑skip ↑limit minDate =
      List.take limit (List.drop skip
        (stF.filter (satisfiesPerformanceFilters minDate))) ∧
    get_leagues stL ↑skip ↑limit minDate leagueName =
      List.take limit (List.drop skip
        (stL.filter (satisfiesLeagueFilters minDate leagueName))) ∧
    get_teams stT ↑skip ↑limit minDate teamName leagueId =
      List.take limit (List.drop skip
        (stT.filter (satisfiesTeamFilters minDate teamName leagueId))) :=
  ⟨get_players_eq stP skip limit minDate firstName lastName,
   get_performances_eq stF skip limit minDate,
   get_leagues_eq stL skip limit minDate leagueName,
   get_teams_eq stT skip limit minDate teamName leagueId⟩

/-- C5: a limit of 0 returns the empty sequence for every entity kind,
every filter set and every skip — "return nothing", not "no limit". -/
theorem limit_zero_returns_empty (stP : List Player) (stF : List Performance)
    (stL : List League) (stT : List Team) (skip : Int) (minDate : Option Nat)
    (firstName lastName leagueName teamName : Option String)
    (leagueId : Option Nat) :
    get_players stP skip 0 minDate firstName lastName = [] ∧
    get_performances stF skip 0 minDate = [] ∧
    get_leagues stL skip 0 minDate leagueName = [] ∧
    get_teams stT skip 0 minDate teamName leagueId = [] := by
  refine ⟨?_, ?_, ?_, ?_⟩ <;>
    simp [get_players, get_performances, get_leagues, get_teams, sqlLimit]

/-- C8: the aggregate player count equals the length of the full unfiltered
player query (window (0, total_player_count)), both for the crud count and
for the player_count field of the Counts body built by the handler. -/
theorem player_count_equals_full_query_length (leagues : List League)
    (teams : List Team) (players : List Player) :
    get_player_count players =
      (get_players players ↑(0:Nat) ↑(get_player_count players)
        none none none).length ∧
    (get_count leagues teams players).player_count =
      (get_players players ↑(0:Nat) ↑(players.length) none none none).length
    := by
  have h : get_players players ↑(0:Nat) ↑(players.length) none none none
      = players := by
    rw [get_players_nofilter]
    simp
  constructor
  · show players.length = _
    rw [show get_player_count players = players.length from rfl, h]
  · show players.length = _
    rw [h]

/-- C9: with every parameter omitted, each list endpoint defaults to
skip = 0 and limit = 100 and behaves exactly like the unfiltered query with
window (0, 100): it returns the first 100 records in store order. -/
theorem list_endpoints_default_window (stP : List Player)
    (stF : List Performance) (stL : List League) (stT : List Team) :
    read_players stP none none none none none =
      .ok (get_players stP 0 100 none none none) ∧
    read_players stP none none none none none = .ok (stP.take 100) ∧
    read_performances stF none none none = .ok (stF.take 100) ∧
    read_leagues stL none none none none = .ok (stL.take 100) ∧
    read_teams stT none none none none none = .ok (stT.take 100) := by
  refine ⟨rfl, ?_, ?_, ?_, ?_⟩ <;>
    simp [read_players, read_performances, read_leagues, read_teams,
      get_players, get_performances, get_leagues, get_teams, applyOpt,
      sqlOffset, sqlLimit]

/-- C4 counterexample: with minimum date 3, skip 0 and limit 1 on the
three-player store, the second player matches every other (absent) filter
and has timestamp ≥ 3, yet is not returned — the claim's inclusion part
fails once the pagination window truncates the matching set. -/
theorem min_date_inclusion_fails_under_limit :
    (⟨2, "Josh", "Jacobs", 7⟩ : Player) ∈ wPlayers ∧
    3 ≤ (⟨2, "Josh", "Jacobs", 7⟩ : Player).last_changed_date ∧
    (⟨2, "Josh", "Jacobs", 7⟩ : Player) ∉
      get_players wPlayers 0 1 (some 3) none none := by
  refine ⟨by decide, by decide, by decide⟩

/-- C4 (amended): for every query kind taking minimum_last_changed_date,
with the parameter = D every returned record has timestamp ≥ D; every
otherwise-matching record with timestamp ≥ D is returned provided the
pagination window covers the whole matching set (skip = 0 and limit at
least the number of matching records); with the parameter omitted, no
timestamp constraint is applied — the result is the window over the records
filtered by the other criteria alone. -/
theorem min_date_is_inclusive_lower_bound (stP : List Player)
    (stF : List Performance) (stL : List League) (stT : List Team)
    (skip limit D : Nat)
    (firstName lastName leagueName teamName : Option String)
    (leagueId : Option Nat) :
    ((∀ r ∈ get_players stP ↑skip ↑limit (some D) firstName lastName,
        D ≤ r.last_changed_date) ∧
      (skip = 0 →
        (stP.filter (satisfiesPlayerFilters (some D) firstName
          lastName)).length ≤ limit →
        ∀ r ∈ stP, satisfiesPlayerFilters none firstName lastName r = true →
          D ≤ r.last_changed_date →
          r ∈ get_players stP ↑skip ↑limit (some D) firstName lastName) ∧
      get_players stP ↑skip ↑limit none firstName lastName =
        List.take limit (List.drop skip
          (stP.filter (satisfiesPlayerFilters none firstName lastName)))) ∧
    ((∀ r ∈ get_performances stF ↑skip ↑limit (some D),
        D ≤ r.last_changed_date) ∧
      (skip = 0 →
        (stF.filter (satisfiesPerformanceFilters (some D))).length ≤ limit →
        ∀ r ∈ stF, satisfiesPerformanceFilters none r = true →
          D ≤ r.last_changed_date →
          r ∈ get_performances stF ↑skip ↑limit (some D)) ∧
      get_performances stF ↑skip ↑limit none =
        List.take limit (List.drop skip
          (stF.filter (satisfiesPerformanceFilters none)))) ∧
    ((∀ r ∈ get_leagues stL ↑skip ↑limit (some D) leagueName,
        D ≤ r.last_changed_date) ∧
      (skip = 0 →
        (stL.filter (satisfiesLeagueFilters (some D) leagueName)).length
            ≤ limit →
        ∀ r ∈ stL, satisfiesLeagueFilters none leagueName r = true →
          D ≤ r.last_changed_date →
          r ∈ get_leagues stL ↑skip ↑limit (some D) leagueName) ∧
      get_leagues stL ↑skip ↑limit none leagueName =
        List.take limit (List.drop skip
          (stL.filter (satisfiesLeagueFilters none leagueName)))) ∧
    ((∀ r ∈ get_teams stT ↑skip ↑limit (some D) teamName leagueId,
        D ≤ r.last_changed_date) ∧
      (skip = 0 →
        (stT.filter (satisfiesTeamFilters (some D) teamName
          leagueId)).length ≤ limit →
        ∀ r ∈ stT, satisfiesTeamFilters none teamName leagueId r = true →
          D ≤ r.last_changed_date →
          r ∈ get_teams stT ↑skip ↑limit (some D) teamName leagueId) ∧
      get_teams stT ↑skip ↑limit none teamName leagueId =
        List.take limit (List.drop skip
          (stT.filter (satisfiesTeamFilters none teamName leagueId)))) := by
  refine ⟨⟨?_, ?_, get_players_eq stP skip limit none firstName lastName⟩,
    ⟨?_, ?_, get_performances_eq stF skip limit none⟩,
    ⟨?_, ?_, get_leagues_eq stL skip limit none leagueName⟩,
    ⟨?_, ?_, get_teams_eq stT skip limit none teamName leagueId⟩⟩
  · rw [get_players_eq]
    exact (window_min_date_bound stP Player.last_changed_date _ _
      D skip limit (satisfiesPlayerFilters_some_iff D firstName lastName)).1
  · rw [get_players_eq]
    exact (window_min_date_bound stP Player.last_changed_date _ _
      D skip limit (satisfiesPlayerFilters_some_iff D firstName lastName)).2
  · rw [get_performances_eq]
    exact (window_min_date_bound stF Performance.last_changed_date _ _
      D skip limit (satisfiesPerformanceFilters_some_iff D)).1
  · rw [get_performances_eq]
    exact (window_min_date_bound stF Performance.last_changed_date _ _
      D skip limit (satisfiesPerformanceFilters_some_iff D)).2
  · rw [get_leagues_eq]
    exact (window_min_date_bound stL League.last_changed_date _ _
      D skip limit (satisfiesLeagueFilters_some_iff D leagueName)).1
  · rw [get_leagues_eq]
    exact (window_min_date_bound stL League.last_changed_date _ _
      D skip limit (satisfiesLeagueFilters_some_iff D leagueName)).2
  · rw [get_teams_eq]
    exact (window_min_date_bound stT Team.last_changed_date _ _
      D skip limit (satisfiesTeamFilters_some_iff D teamName leagueId)).1
  · rw [get_teams_eq]
    exact (window_min_date_bound stT Team.last_changed_date _ _
      D skip limit (satisfiesTeamFilters_some_iff D teamName leagueId)).2

/-- Witness for C4 (amended) at the concrete store: a returned record has
timestamp ≥ 3, and an otherwise-matching record is returned when the window
covers all matches. -/
theorem min_date_is_inclusive_lower_bound_w :
    3 ≤ (⟨1, "Josh", "Allen", 5⟩ : Player).last_changed_date ∧
    (⟨2, "Josh", "Jacobs", 7⟩ : Player) ∈
      get_players wPlayers ↑(0:Nat) ↑(100:Nat) (some 3) none none :=
  ⟨(min_date_is_inclusive_lower_bound wPlayers wPerformances wLeagues wTeams
      0 100 3 none none none none none).1.1
      ⟨1, "Josh", "Allen", 5⟩ (by decide),
   (min_date_is_inclusive_lower_bound wPlayers wPerformances wLeagues wTeams
      0 100 3 none none none none none).1.2.1
      rfl (by decide) ⟨2, "Josh", "Jacobs", 7⟩ (by decide) (by decide)
      (by decide)⟩

/-- C6: a lookup by an id not present in the store yields the not-found
outcome from the data-access layer — never a failure — and the handler
surfaces it as a 404 client error with a descriptive message. -/
theorem get_by_id_absent_is_not_found (stP : List Player) (stL : List League)
    (pid lid : Nat)
    (hp : ∀ p ∈ stP, p.player_id ≠ pid)
    (hl : ∀ l ∈ stL, l.league_id ≠ lid) :
    get_player stP pid = none ∧
    read_player stP pid = .error 404 "선수를 찾을 수 없습니다." ∧
    (read_player stP pid).isClientError = true ∧
    get_league stL lid = none ∧
    read_league stL lid = .error 404 "리그를 찾을 수 없습니다." ∧
    (read_league stL lid).isClientError = true := by
  have hp' : get_player stP pid = none := by
    apply List.find?_eq_none.mpr
    intro p hmem
    simpa using hp p hmem
  have hl' : get_league stL lid = none := by
    apply List.find?_eq_none.mpr
    intro l hmem
    simpa using hl l hmem
  refine ⟨hp', ?_, ?_, hl', ?_, ?_⟩ <;>
    simp [read_player, read_league, hp', hl', ApiResponse.isClientError]

/-- Witness for C6: id 99 is absent from both concrete stores. -/
theorem get_by_id_absent_is_not_found_w :
    get_player wPlayers 99 = none ∧
    read_player wPlayers 99 = .error 404 "선수를 찾을 수 없습니다." ∧
    (read_player wPlayers 99).isClientError = true ∧
    get_league wLeagues 99 = none ∧
    read_league wLeagues 99 = .error 404 "리그를 찾을 수 없습니다." ∧
    (read_league wLeagues 99).isClientError = true :=
  get_by_id_absent_is_not_found wPlayers wLeagues 99 99 (by decide)
    (by decide)

/-- C7 counterexample: a request with skip = -1 and limit = -1 is not
rejected — the handler performs no validation and the store is queried
(a negative limit means "no limit" at the store, so the whole store comes
back); the outcome is not a client error. -/
theorem negative_pagination_not_rejected :
    read_players wPlayers (some (-1)) (some (-1)) none none none =
      .ok wPlayers ∧
    (read_players wPlayers (some (-1)) (some (-1)) none none
      none).isClientError = false := by
  exact ⟨by decide, by decide⟩

/-- C7 (amended): none of the four list handlers validates skip or limit —
for every input, including negative values, each forwards the bound values
to the data-access layer and returns the store result; none ever produces a
client-error outcome. -/
theorem handlers_never_validation_error (stP : List Player)
    (stF : List Performance) (stL : List League) (stT : List Team)
    (skip limit : Option Int) (minDate : Option Nat)
    (firstName lastName leagueName teamName : Option String)
    (leagueId : Option Nat) :
    (read_players stP skip limit minDate firstName lastName =
        .ok (get_players stP (skip.getD 0) (limit.getD 100)
          minDate firstName lastName) ∧
      (read_players stP skip limit minDate firstName
        lastName).isClientError = false) ∧
    (read_performances stF skip limit minDate =
        .ok (get_performances stF (skip.getD 0) (limit.getD 100) minDate) ∧
      (read_performances stF skip limit minDate).isClientError = false) ∧
    (read_leagues stL skip limit minDate leagueName =
        .ok (get_leagues stL (skip.getD 0) (limit.getD 100)
          minDate leagueName) ∧
      (read_leagues stL skip limit minDate leagueName).isClientError
        = false) ∧
    (read_teams stT skip limit minDate teamName leagueId =
        .ok (get_teams stT (skip.getD 0) (limit.getD 100)
          minDate teamName leagueId) ∧
      (read_teams stT skip limit minDate teamName leagueId).isClientError
        = false) :=
  ⟨⟨rfl, rfl⟩, ⟨rfl, rfl⟩, ⟨rfl, rfl⟩, ⟨rfl, rfl⟩⟩

/-- C10: when a single-record lookup finds a match the handler returns the
record obtained from the data-access layer unchanged. -/
theorem found_record_returned_unchanged (stP : List Player)
    (stL : List League) (pid lid : Nat) (p : Player) (l : League)
    (hp : get_player stP pid = some p) (hl : get_league stL lid = some l) :
    read_player stP pid = .ok p ∧ read_league stL lid = .ok l := by
  constructor <;> simp [read_player, read_league, hp, hl]

/-- Witness for C10 at the concrete stores. -/
theorem found_record_returned_unchanged_w :
    read_player wPlayers 2 = .ok ⟨2, "Josh", "Jacobs", 7⟩ ∧
    read_league wLeagues 10 = .ok ⟨10, "Pigskin", 4⟩ :=
  found_record_returned_unchanged wPlayers wLeagues 2 10
    ⟨2, "Josh", "Jacobs", 7⟩ ⟨10, "Pigskin", 4⟩ (by decide) (by decide)
